import Mathlib

/-!
Verification of the Celery autoscaler in `gemini_fastapi/scaler.py`.

The scaler is embedded shallowly:
* `ScalingConfig` mirrors the `ScalingConfig` dataclass.
* Pure decision logic (`should_scale`, the desired-worker formula inside
  `scale_workers`) becomes pure Lean functions on `Nat`.
* Time is modelled as microseconds since an epoch (`Nat`); the Python
  expression `(datetime.now() - self.last_scale_time).seconds` is the
  whole-seconds, sub-day component of the elapsed `timedelta`, captured by
  `tdSeconds`.
* Worker processes are modelled by `Proc` (pid plus whether the process
  exits within the 5-second grace window after SIGTERM); the worker map
  `self.worker_processes` is a `List (String × Proc)` in insertion order,
  matching Python dict ordering.
* OS-level effects (signals, waits, removals) are recorded as event traces
  (`Ev`), and stateful methods become functions `ScalerState → ScalerState`.
* Lock usage is modelled by a tiny two-thread interleaving semantics over
  atomic operations (`ThreadOp`), with the schedules the state lock admits.
-/

namespace GeminiScaler

/-- Embeds the `ScalingConfig` dataclass (scaler.py lines 17-27), with the
same defaults. The two threshold ratios are carried but, as the spec notes,
never read by the decision logic. -/
structure ScalingConfig where
  min_workers : Nat := 3
  max_workers : Nat := 50
  tasks_per_worker : Nat := 1
  check_interval : Nat := 10
  scale_up_threshold : Rat := 0.8
  scale_down_threshold : Rat := 0.3
  cooldown_period : Nat := 60
  worker_startup_time : Nat := 30
  workerPrefix : String := "celery_worker"
deriving Repr, DecidableEq

/-- Embeds the Python expression `timedelta.seconds` applied to the elapsed
time `datetime.now() - last_scale_time`, for a nonnegative elapsed time of
`elapsedUs` microseconds: Python normalises a timedelta to
days/seconds/microseconds, and `.seconds` is the whole-seconds component
modulo one day (0..86399). -/
def tdSeconds (elapsedUs : Nat) : Nat :=
  elapsedUs / 1000000 % 86400

/-- Embeds `int(current_workers * 0.2)` (scaler.py line 116). Python `int`
truncates toward zero; for every worker count in the realistic range the
double rounding in `current_workers * 0.2` never crosses an integer
boundary, so the truncation equals floor division by 5. -/
def truncFifth (current : Nat) : Nat :=
  current / 5

/-- Follows the spec wording for C4: `round(current × 0.2)`. Rounding of
`current / 5` to the nearest integer (the fractional part is never exactly
one half, so tie-breaking is irrelevant). -/
def roundFifth (current : Nat) : Nat :=
  (2 * current + 5) / 10

/-- Embeds `CeleryScaler.should_scale` (scaler.py lines 109-116):
returns false while the sub-day elapsed seconds are below the cooldown,
otherwise compares `abs(desired - current)` against
`max(2, int(current * 0.2))`. `elapsedUs` is `now - last_scale_time` in
microseconds. -/
def should_scale (cfg : ScalingConfig) (elapsedUs desired current : Nat) : Bool :=
  if tdSeconds elapsedUs < cfg.cooldown_period then
    false
  else
    decide (max 2 (truncFifth current) ≤ (((desired : Int) - current).natAbs))

/-- Embeds the desired-worker computation inside `CeleryScaler.scale_workers`
(scaler.py lines 122-126):
`max(min_workers, min(max_workers, queue_length // tasks_per_worker + 1))`,
where `//` is Python floor division on nonnegative integers. -/
def desired_workers (cfg : ScalingConfig) (queue_length : Nat) : Nat :=
  max cfg.min_workers (min cfg.max_workers (queue_length / cfg.tasks_per_worker + 1))

/-- Clamps `x` into `[lo, hi]` (for `lo ≤ hi`), as in the spec formula
`clamp(·, min, max)`. -/
def clamp (lo hi x : Nat) : Nat :=
  max lo (min hi x)

/-- Ceiling division on naturals, `⌈a / b⌉` for `b ≥ 1`. -/
def ceilDiv (a b : Nat) : Nat :=
  (a + b - 1) / b

/-- Modelled from the spec wording for C1: the desired-worker formula
`clamp(ceil(queueLength / tasksPerWorker) + 1, min, max)`. Kept separate
from `desired_workers` (which embeds the source) so the two can be
compared. -/
def desired_workers_spec (cfg : ScalingConfig) (queue_length : Nat) : Nat :=
  clamp cfg.min_workers cfg.max_workers (ceilDiv queue_length cfg.tasks_per_worker + 1)

/-- A spawned worker process: its pid and whether it exits within the
5-second grace window after receiving SIGTERM. -/
structure Proc where
  pid : Nat
  graceful : Bool
deriving Repr, DecidableEq

/-- Atomic observable events of the worker-lifecycle code: sending SIGTERM
(`process.terminate()`), observing an exit inside the grace window
(`process.wait(timeout=5)` returning), sending SIGKILL (`process.kill()`),
invoking `process.terminate()` or `process.kill()` a second time, and
deleting the handle from `self.worker_processes`. -/
inductive Ev where
  | sigterm (pid : Nat)
  | waitExit (pid : Nat)
  | sigkill (pid : Nat)
  | remove (name : String) (pid : Nat)
deriving Repr, DecidableEq

/-- Events emitted for one worker by the body of the `scale_down` loop
(scaler.py lines 164-175): SIGTERM, then either an exit observed within the
grace window or (on `TimeoutExpired`) a SIGKILL, and only then the `del`
from the worker map. -/
def terminateEvents (name : String) (p : Proc) : List Ev :=
  if p.graceful then
    [Ev.sigterm p.pid, Ev.waitExit p.pid, Ev.remove name p.pid]
  else
    [Ev.sigterm p.pid, Ev.sigkill p.pid, Ev.remove name p.pid]

/-- Concatenates the per-worker event blocks in list order (the order the
`for` loop visits `workers_to_remove`). -/
def traceOf : List (String × Proc) → List Ev
  | [] => []
  | wp :: rest => terminateEvents wp.1 wp.2 ++ traceOf rest

/-- Embeds the event trace of `CeleryScaler.scale_down count` (scaler.py
lines 158-180): the loop visits `list(worker_processes.items())[:count]`,
i.e. the first `count` entries in insertion order. -/
def scale_down_trace (workers : List (String × Proc)) (count : Nat) : List Ev :=
  traceOf (workers.take count)

/-- One step of the confirmed-dead bookkeeping: a pid is confirmed dead
once its exit was observed inside the grace window or it was force-killed. -/
def evDead (e : Ev) (dead : List Nat) : List Nat :=
  match e with
  | Ev.waitExit p => p :: dead
  | Ev.sigkill p => p :: dead
  | _ => dead

/-- A single event is safe given the set of already-confirmed-dead pids:
removing a handle is safe only if its process is confirmed dead. -/
def evOk (e : Ev) (dead : List Nat) : Bool :=
  match e with
  | Ev.remove _ p => decide (p ∈ dead)
  | _ => true

/-- Checks a whole trace: every removal happens only after the removed
worker's process is confirmed gone (gracefully exited or force-killed). -/
def safeRemovals : List Ev → List Nat → Bool
  | [], _ => true
  | e :: rest, dead => evOk e dead && safeRemovals rest (evDead e dead)

/-- The confirmed-dead pids accumulated by a trace. -/
def deadAfter : List Ev → List Nat → List Nat
  | [], dead => dead
  | e :: rest, dead => deadAfter rest (evDead e dead)

/-- Embeds `CeleryScaler`'s mutable state (scaler.py lines 44-48):
the worker map, `last_scale_time` (microseconds), and the running flag. -/
structure ScalerState where
  workers : List (String × Proc)
  lastScaleTimeUs : Nat
  running : Bool
deriving Repr, DecidableEq

/-- Embeds the spawn loop of `scale_up` (scaler.py lines 140-149): spawn
attempts `i, i+1, ...` are drawn from `supply`; a `none` models
`subprocess.Popen` raising, which aborts the loop (the workers already
spawned stay recorded). Returns the spawned workers and whether the loop
completed without an exception. -/
def spawnFrom (supply : Nat → Option (String × Proc)) (i : Nat) : Nat → List (String × Proc) × Bool
  | 0 => ([], true)
  | Nat.succ k =>
    match supply i with
    | none => ([], false)
    | some w =>
      let r := spawnFrom supply (i + 1) k
      (w :: r.1, r.2)

/-- Embeds `CeleryScaler.scale_up count` (scaler.py lines 136-156): spawns
`count` workers, appending each handle to the worker map; if the loop
completes without an exception, `last_scale_time` is set to now (line 151,
before the startup sleep); on an exception the `except` clause skips that
assignment. -/
def scale_up (s : ScalerState) (nowUs count : Nat)
    (supply : Nat → Option (String × Proc)) : ScalerState :=
  let r := spawnFrom supply 0 count
  if r.2 then
    { workers := s.workers ++ r.1, lastScaleTimeUs := nowUs, running := s.running }
  else
    { workers := s.workers ++ r.1, lastScaleTimeUs := s.lastScaleTimeUs, running := s.running }

/-- State effect of `CeleryScaler.scale_down count` on the exception-free
path (scaler.py lines 158-180): the first `count` handles are removed and
`last_scale_time` is set to now. The signal trace is `scale_down_trace`. -/
def scale_down_state (s : ScalerState) (nowUs count : Nat) : ScalerState :=
  { workers := s.workers.drop count, lastScaleTimeUs := nowUs, running := s.running }

/-- The scaling action `scale_workers` chooses. -/
inductive Action where
  | up (count : Nat)
  | down (count : Nat)
deriving Repr, DecidableEq

/-- Embeds the decision part of `CeleryScaler.scale_workers` (scaler.py
lines 118-134): computes the desired count, gates on `should_scale`, then
scales up or down by the difference. `current` is the count
`get_active_workers` returned inside the lock. -/
def scale_workers_action (cfg : ScalingConfig) (elapsedUs queue_length current : Nat) :
    Option Action :=
  let desired := desired_workers cfg queue_length
  if should_scale cfg elapsedUs desired current then
    if current < desired then some (Action.up (desired - current))
    else if desired < current then some (Action.down (current - desired))
    else none
  else
    none

/-- Embeds the actions of one iteration of `CeleryScaler.run` (scaler.py
lines 206-228): first `scale_workers` (which re-reads the worker census,
`currentScale`), then the floor check, which compares the count observed at
the top of the tick (`currentRun`) against `min_workers` and calls
`scale_up(min_workers - currentRun)` directly, without consulting
`should_scale`. -/
def tick_actions (cfg : ScalingConfig) (elapsedUs queue_length currentScale currentRun : Nat) :
    List Action :=
  (scale_workers_action cfg elapsedUs queue_length currentScale).toList ++
    (if currentRun < cfg.min_workers then [Action.up (cfg.min_workers - currentRun)] else [])

/-- Embeds the state effect of one iteration of `CeleryScaler.run`
(scaler.py lines 206-228): `scale_workers` runs first (its elapsed time is
measured from the stored `last_scale_time`), then the unconditional floor
check invokes `scale_up` directly. `supplyUp` and `supplyFloor` provide the
spawn outcomes for the two possible `scale_up` calls. -/
def run_tick (cfg : ScalingConfig) (s : ScalerState) (nowUs queue_length currentScale currentRun : Nat)
    (supplyUp supplyFloor : Nat → Option (String × Proc)) : ScalerState :=
  let elapsed := nowUs - s.lastScaleTimeUs
  let s1 :=
    match scale_workers_action cfg elapsed queue_length currentScale with
    | some (Action.up n) => scale_up s nowUs n supplyUp
    | some (Action.down n) => scale_down_state s nowUs n
    | none => s
  if currentRun < cfg.min_workers then
    scale_up s1 nowUs (cfg.min_workers - currentRun) supplyFloor
  else
    s1

/-- Events emitted for one worker by the loop body of `cleanup` (scaler.py
lines 188-193): `terminate()`, then `wait(timeout=5)`; if that raises
(`TimeoutExpired`), `kill()`. No handle is ever deleted from the map here. -/
def cleanupEvents (p : Proc) : List Ev :=
  if p.graceful then [Ev.sigterm p.pid, Ev.waitExit p.pid]
  else [Ev.sigterm p.pid, Ev.sigkill p.pid]

/-- Concatenates the cleanup loop's per-worker events in map order. -/
def cleanupTraceOf : List (String × Proc) → List Ev
  | [] => []
  | wp :: rest => cleanupEvents wp.2 ++ cleanupTraceOf rest

/-- Embeds `CeleryScaler.cleanup` (scaler.py lines 182-193): sets
`running = False` and iterates `self.worker_processes.items()`, invoking
`terminate`/`wait`/`kill` on every tracked handle. The method contains no
`del`, so the worker map is returned unchanged, and it takes no lock.
Returns the new state and the events of the signalling loop. -/
def cleanup (s : ScalerState) : ScalerState × List Ev :=
  ({ workers := s.workers, lastScaleTimeUs := s.lastScaleTimeUs, running := false },
   cleanupTraceOf s.workers)

/-- Outcome of the Redis read `self.redis_conn.llen(queue_name)`:
a length, a `RedisError`, or any other exception. -/
inductive RedisResult where
  | ok (n : Nat)
  | redisErr (msg : String)
  | otherErr (msg : String)

/-- Embeds `CeleryScaler.get_queue_length` (scaler.py lines 84-93): returns
the queue length on success; both `except RedisError` and the catch-all
`except Exception` log and return 0, so the function is total — no outcome
reaches the caller as an exception. -/
def get_queue_length (r : RedisResult) : Nat :=
  match r with
  | RedisResult.ok n => n
  | RedisResult.redisErr _ => 0
  | RedisResult.otherErr _ => 0

/-- Atomic operations relevant to the state-lock discipline: acquiring or
releasing `self.lock`, and touching the shared worker map. -/
inductive ThreadOp where
  | acquireLock
  | releaseLock
  | touchWorkers
deriving Repr, DecidableEq

/-- One executed step: which thread ran (`false` = control thread, `true` =
shutdown path), the operation, and who owned the lock when the step ran. -/
abbrev TraceEntry := Bool × ThreadOp × Option Bool

/-- Executes a schedule (a list naming which thread takes the next step)
over two threads, enforcing mutual exclusion on the single state lock:
`acquireLock` is only enabled when the lock is free, `releaseLock` only for
the owner. Returns the executed trace, or `none` for an inadmissible
schedule. -/
def schedExec : List ThreadOp → List ThreadOp → List Bool → Option Bool →
    Option (List TraceEntry)
  | as, bs, [], _ => if as.isEmpty && bs.isEmpty then some [] else none
  | as, bs, who :: rest, owner =>
    if who then
      match bs with
      | [] => none
      | b :: bs2 =>
        match b, owner with
        | ThreadOp.acquireLock, none =>
          (schedExec as bs2 rest (some true)).map (fun t => (true, b, owner) :: t)
        | ThreadOp.acquireLock, some _ => none
        | ThreadOp.releaseLock, some true =>
          (schedExec as bs2 rest none).map (fun t => (true, b, owner) :: t)
        | ThreadOp.releaseLock, _ => none
        | ThreadOp.touchWorkers, o =>
          (schedExec as bs2 rest o).map (fun t => (true, b, owner) :: t)
    else
      match as with
      | [] => none
      | a :: as2 =>
        match a, owner with
        | ThreadOp.acquireLock, none =>
          (schedExec as2 bs rest (some false)).map (fun t => (false, a, owner) :: t)
        | ThreadOp.acquireLock, some _ => none
        | ThreadOp.releaseLock, some false =>
          (schedExec as2 bs rest none).map (fun t => (false, a, owner) :: t)
        | ThreadOp.releaseLock, _ => none
        | ThreadOp.touchWorkers, o =>
          (schedExec as2 bs rest o).map (fun t => (false, a, owner) :: t)

/-- Lock behaviour of `CeleryScaler.scale_workers` (scaler.py lines
118-134): the whole body runs inside `with self.lock`, reading the census
and then mutating the worker map via `scale_up`/`scale_down`. -/
def scale_workers_ops : List ThreadOp :=
  [ThreadOp.acquireLock, ThreadOp.touchWorkers, ThreadOp.touchWorkers, ThreadOp.releaseLock]

/-- Lock behaviour of `CeleryScaler.cleanup` (scaler.py lines 182-193):
the method iterates `self.worker_processes` with no `with self.lock`
anywhere in its body. -/
def cleanup_ops : List ThreadOp :=
  [ThreadOp.touchWorkers]

/-- A schedule in which the shutdown path's worker-map access runs in the
middle of the control thread's critical section. -/
def c8Sched : List Bool :=
  [false, false, true, false, false]

/-- The default configuration (all dataclass defaults). -/
def baseCfg : ScalingConfig := {}

/-- Configuration exercising the ceil/floor divergence of C1:
`tasks_per_worker = 2` with bounds that do not mask the formula. -/
def cfgC1 : ScalingConfig :=
  { min_workers := 1, max_workers := 10, tasks_per_worker := 2 }

/-- Configuration differing from `baseCfg` only in the two threshold
ratios (for C7). -/
def cfgC7 : ScalingConfig :=
  { scale_up_threshold := 0.5, scale_down_threshold := 0.1 }

/-- A scaler state tracking a single worker handle (for C2). -/
def c2State : ScalerState :=
  { workers := [("w1", { pid := 101, graceful := true })],
    lastScaleTimeUs := 0, running := true }

/-- An empty-pool scaler state (for C10). -/
def c10State : ScalerState :=
  { workers := [], lastScaleTimeUs := 0, running := true }

/-- A spawn supply in which every spawn attempt succeeds. -/
def supplyW : Nat → Option (String × Proc) :=
  fun i => some ("w", { pid := i, graceful := true })

/-! ### Helper lemmas -/

theorem safeRemovals_append (xs ys : List Ev) (dead : List Nat) :
    safeRemovals (xs ++ ys) dead =
      (safeRemovals xs dead && safeRemovals ys (deadAfter xs dead)) := by
  induction xs generalizing dead with
  | nil => simp [safeRemovals, deadAfter]
  | cons e rest ih =>
    simp [safeRemovals, deadAfter, ih, Bool.and_assoc]

theorem terminateEvents_safe (name : String) (p : Proc) (dead : List Nat) :
    safeRemovals (terminateEvents name p) dead = true := by
  unfold terminateEvents
  split <;> simp [safeRemovals, evOk, evDead]

theorem traceOf_safe (l : List (String × Proc)) (dead : List Nat) :
    safeRemovals (traceOf l) dead = true := by
  induction l generalizing dead with
  | nil => rfl
  | cons wp rest ih =>
    simp [traceOf, safeRemovals_append, terminateEvents_safe, ih]

theorem traceOf_mem {l : List (String × Proc)} {wp : String × Proc} {e : Ev}
    (hwp : wp ∈ l) (he : e ∈ terminateEvents wp.1 wp.2) : e ∈ traceOf l := by
  induction l with
  | nil => cases hwp
  | cons hd tl ih =>
    simp only [traceOf, List.mem_append]
    rcases List.mem_cons.mp hwp with h | h
    · exact Or.inl (h ▸ he)
    · exact Or.inr (ih h)

theorem spawnFrom_ok (supply : Nat → Option (String × Proc))
    (hall : ∀ i, (supply i).isSome = true) (n i : Nat) :
    (spawnFrom supply i n).2 = true := by
  induction n generalizing i with
  | zero => rfl
  | succ k ih =>
    unfold spawnFrom
    cases h : supply i with
    | none => have := hall i; rw [h] at this; cases this
    | some w => simpa using ih (i + 1)

theorem scale_up_stamps (s : ScalerState) (nowUs count : Nat)
    (supply : Nat → Option (String × Proc))
    (hall : ∀ i, (supply i).isSome = true) :
    (scale_up s nowUs count supply).lastScaleTimeUs = nowUs := by
  simp only [scale_up, spawnFrom_ok supply hall count 0, if_true]

/-! ### Claims -/

/-- C1, counterexample: with `tasks_per_worker = 2`, `min = 1 ≤ max = 10`
and `queue_length = 3`, the code (floor division) yields 2 desired workers
while the claimed formula `clamp(ceil(3/2) + 1, 1, 10)` yields 3. -/
theorem c1_counterexample :
    desired_workers cfgC1 3 = 2 ∧ desired_workers_spec cfgC1 3 = 3 ∧
      desired_workers cfgC1 3 ≠ desired_workers_spec cfgC1 3 := by
  refine ⟨rfl, rfl, ?_⟩
  decide

/-- C1, amended: for `tasksPerWorker ≥ 1` and `0 < min ≤ max`, the
desired-worker computation in `scale_workers` returns
`clamp(floor(queueLength / tasksPerWorker) + 1, min, max)` (floor division,
as in the source, not ceiling), and the result lies in `[min, max]`. -/
theorem c1_desired_workers_floor (cfg : ScalingConfig) (q : Nat)
    (htask : 1 ≤ cfg.tasks_per_worker) (hmin : 0 < cfg.min_workers)
    (hle : cfg.min_workers ≤ cfg.max_workers) :
    desired_workers cfg q = clamp cfg.min_workers cfg.max_workers (q / cfg.tasks_per_worker + 1) ∧
      cfg.min_workers ≤ desired_workers cfg q ∧
      desired_workers cfg q ≤ cfg.max_workers := by
  refine ⟨rfl, ?_, ?_⟩ <;> (unfold desired_workers; omega)

/-- C1, witness for the amended theorem at the default configuration and
queue length 7. -/
theorem c1_floor_witness :
    desired_workers baseCfg 7 =
        clamp baseCfg.min_workers baseCfg.max_workers (7 / baseCfg.tasks_per_worker + 1) ∧
      baseCfg.min_workers ≤ desired_workers baseCfg 7 ∧
      desired_workers baseCfg 7 ≤ baseCfg.max_workers :=
  c1_desired_workers_floor baseCfg 7 (by decide) (by decide) (by decide)

/-- C2, code evaluation at the failing input: with one tracked handle,
`cleanup` leaves the worker map unchanged (it contains no `del`), so the
map is not empty after the first call, and a second call iterates the same
handle again, re-invoking `terminate`/`wait` on it. -/
theorem c2_cleanup_keeps_handles :
    ((cleanup c2State).1).workers = c2State.workers ∧
      ((cleanup ((cleanup c2State).1)).1).workers = c2State.workers ∧
      c2State.workers ≠ [] ∧
      (cleanup ((cleanup c2State).1)).2 = [Ev.sigterm 101, Ev.waitExit 101] := by
  refine ⟨rfl, rfl, ?_, rfl⟩
  decide

/-- C3: in the event trace of `scale_down`, every removal of a handle from
the worker map happens only after that worker's process is confirmed gone
(`safeRemovals`); moreover every selected handle first receives the
graceful SIGTERM, a process that ignores it receives a forced SIGKILL, and
its removal does occur. Handles are never dropped while the underlying
process might still be running. -/
theorem c3_scale_down_confirms_before_remove (workers : List (String × Proc))
    (count : Nat) (wp : String × Proc) (hwp : wp ∈ workers.take count) :
    safeRemovals (scale_down_trace workers count) [] = true ∧
      Ev.sigterm wp.2.pid ∈ scale_down_trace workers count ∧
      (wp.2.graceful = false → Ev.sigkill wp.2.pid ∈ scale_down_trace workers count) ∧
      Ev.remove wp.1 wp.2.pid ∈ scale_down_trace workers count := by
  refine ⟨traceOf_safe _ _, ?_, ?_, ?_⟩
  · refine traceOf_mem hwp ?_
    unfold terminateEvents; split <;> simp
  · intro hg
    refine traceOf_mem hwp ?_
    unfold terminateEvents; rw [hg]; simp
  · refine traceOf_mem hwp ?_
    unfold terminateEvents; split <;> simp

/-- C3, witness: a two-worker map where the second worker ignores SIGTERM;
`scale_down 2` SIGTERMs it, SIGKILLs it, and removes it only afterwards. -/
theorem c3_witness :
    safeRemovals (scale_down_trace
        [("a", { pid := 1, graceful := true }), ("b", { pid := 2, graceful := false })] 2) [] = true ∧
      Ev.sigterm 2 ∈ scale_down_trace
        [("a", { pid := 1, graceful := true }), ("b", { pid := 2, graceful := false })] 2 ∧
      (false = false → Ev.sigkill 2 ∈ scale_down_trace
        [("a", { pid := 1, graceful := true }), ("b", { pid := 2, graceful := false })] 2) ∧
      Ev.remove "b" 2 ∈ scale_down_trace
        [("a", { pid := 1, graceful := true }), ("b", { pid := 2, graceful := false })] 2 :=
  c3_scale_down_confirms_before_remove
    [("a", { pid := 1, graceful := true }), ("b", { pid := 2, graceful := false })] 2
    ("b", { pid := 2, graceful := false }) (by decide)

/-- C4, counterexample: at `current = 13`, `desired = 15`, cooldown
elapsed, the code returns true (deadband `max(2, int(13·0.2)) = 2 ≤ 2`)
although `|15 − 13| = 2 < max(2, round(13·0.2)) = 3`, refuting the claim
that true is returned only when the difference reaches the rounded
deadband. -/
theorem c4_counterexample :
    should_scale baseCfg 60000000 15 13 = true ∧
      (((15 : Int) - 13).natAbs < max 2 (roundFifth 13)) := by
  constructor <;> decide

/-- C4, amended: when at least `cooldownPeriod` (sub-day) seconds have
elapsed, `should_scale(desired, current)` returns true if and only if
`|desired − current| ≥ max(2, trunc(current × 0.2))`, where `trunc` is
Python `int` truncation (floor for nonnegative values), not rounding. -/
theorem c4_deadband_trunc (cfg : ScalingConfig) (elapsedUs desired current : Nat)
    (h : cfg.cooldown_period ≤ tdSeconds elapsedUs) :
    (should_scale cfg elapsedUs desired current = true ↔
      max 2 (truncFifth current) ≤ ((desired : Int) - current).natAbs) := by
  have hlt : ¬ tdSeconds elapsedUs < cfg.cooldown_period := Nat.not_lt.mpr h
  simp [should_scale, hlt]

/-- C4, witness for the amended theorem: defaults, elapsed 60 s,
`desired = 10`, `current = 3`. -/
theorem c4_trunc_witness :
    (should_scale baseCfg 60000000 10 3 = true ↔
      max 2 (truncFifth 3) ≤ ((10 : Int) - 3).natAbs) :=
  c4_deadband_trunc baseCfg 60000000 10 3 (by decide)

/-- C5: whenever the worker count observed at the top of a tick is below
`min_workers`, the tick ends with the floor action `scale_up(min_workers −
current)` — for every elapsed time since the last scaling action (so the
cooldown gate is bypassed) and every queue length and in-lock census (so
the deadband gate is bypassed). -/
theorem c5_floor_bypasses_gates (cfg : ScalingConfig)
    (elapsedUs queue_length currentScale currentRun : Nat)
    (h : currentRun < cfg.min_workers) :
    (tick_actions cfg elapsedUs queue_length currentScale currentRun).getLast? =
      some (Action.up (cfg.min_workers - currentRun)) := by
  unfold tick_actions
  rw [if_pos h]
  exact List.getLast?_concat _

/-- C5, witness: defaults, one worker observed, zero elapsed time (cooldown
not satisfied): the floor still spawns `3 − 1 = 2` workers. -/
theorem c5_floor_witness :
    (tick_actions baseCfg 0 0 0 1).getLast? = some (Action.up 2) :=
  c5_floor_bypasses_gates baseCfg 0 0 0 1 (by decide)

/-- C6: `get_queue_length` returns 0 on every failing counter-store read
(both the `RedisError` branch and the catch-all branch); being a total
function of the read outcome, it never propagates an exception to its
caller. -/
theorem c6_queue_length_error_zero (r : RedisResult)
    (h : ∀ n, r ≠ RedisResult.ok n) : get_queue_length r = 0 := by
  cases r with
  | ok n => exact absurd rfl (h n)
  | redisErr m => rfl
  | otherErr m => rfl

/-- C6, witness: an unreachable metrics store (a transport error) yields
queue length 0. -/
theorem c6_error_witness :
    get_queue_length (RedisResult.redisErr "connection refused") = 0 :=
  c6_queue_length_error_zero (RedisResult.redisErr "connection refused")
    (fun _ hn => RedisResult.noConfusion hn)

/-- C7: the scaling decision never reads `scale_up_threshold` or
`scale_down_threshold`: two configurations equal in every other field give
identical results for `should_scale`, the desired-worker computation,
`scale_workers`, and the whole tick. -/
theorem c7_thresholds_inert (c1 c2 : ScalingConfig)
    (e d c q cS cR : Nat)
    (hmin : c1.min_workers = c2.min_workers)
    (hmax : c1.max_workers = c2.max_workers)
    (htask : c1.tasks_per_worker = c2.tasks_per_worker)
    (hci : c1.check_interval = c2.check_interval)
    (hcool : c1.cooldown_period = c2.cooldown_period)
    (hstart : c1.worker_startup_time = c2.worker_startup_time)
    (hpfx : c1.workerPrefix = c2.workerPrefix) :
    should_scale c1 e d c = should_scale c2 e d c ∧
      desired_workers c1 q = desired_workers c2 q ∧
      scale_workers_action c1 e q cS = scale_workers_action c2 e q cS ∧
      tick_actions c1 e q cS cR = tick_actions c2 e q cS cR := by
  obtain ⟨m1, M1, t1, i1, u1, v1, p1, w1, x1⟩ := c1
  obtain ⟨m2, M2, t2, i2, u2, v2, p2, w2, x2⟩ := c2
  dsimp only at hmin hmax htask hci hcool hstart hpfx
  subst hmin hmax htask hci hcool hstart hpfx
  exact ⟨rfl, rfl, rfl, rfl⟩

/-- C7, witness: a configuration with thresholds 0.5/0.1 behaves exactly
like the default 0.8/0.3 configuration on a concrete input. -/
theorem c7_inert_witness :
    should_scale cfgC7 0 5 1 = should_scale baseCfg 0 5 1 ∧
      desired_workers cfgC7 4 = desired_workers baseCfg 4 ∧
      scale_workers_action cfgC7 0 4 1 = scale_workers_action baseCfg 0 4 1 ∧
      tick_actions cfgC7 0 4 1 1 = tick_actions baseCfg 0 4 1 1 :=
  c7_thresholds_inert cfgC7 baseCfg 0 5 1 4 1 1 rfl rfl rfl rfl rfl rfl rfl

/-- C8, code evaluation at the failing schedule: because `cleanup` never
acquires the state lock, the mutual-exclusion semantics admits a schedule
in which the shutdown path touches the worker map strictly between the
control thread's lock acquisition and release, i.e. interleaved with an
in-flight reconcile — the interleaving the claim asserts is impossible. -/
theorem c8_cleanup_races_reconcile :
    schedExec scale_workers_ops cleanup_ops c8Sched none =
      some [(false, ThreadOp.acquireLock, none),
            (false, ThreadOp.touchWorkers, some false),
            (true, ThreadOp.touchWorkers, some false),
            (false, ThreadOp.touchWorkers, some false),
            (false, ThreadOp.releaseLock, some false)] ∧
      (true, ThreadOp.touchWorkers, some false) ∈
        [((false : Bool), ThreadOp.acquireLock, (none : Option Bool)),
         (false, ThreadOp.touchWorkers, some false),
         (true, ThreadOp.touchWorkers, some false),
         (false, ThreadOp.touchWorkers, some false),
         (false, ThreadOp.releaseLock, some false)] := by
  constructor
  · rfl
  · decide

/-- C9: `should_scale` compares only `timedelta.seconds` — the whole-second
sub-day component of the elapsed time — against the cooldown, so it returns
false for every desired/current pair whenever that component is below
`cooldown_period`; in particular also after `days` whole days plus `t`
seconds with `t < cooldown_period`, however large `days` is. -/
theorem c9_cooldown_subday (cfg : ScalingConfig) (elapsedUs desired current days t : Nat) :
    (tdSeconds elapsedUs < cfg.cooldown_period →
      should_scale cfg elapsedUs desired current = false) ∧
      (t < cfg.cooldown_period →
        should_scale cfg (days * 86400000000 + t * 1000000) desired current = false) := by
  constructor
  · intro h
    unfold should_scale
    rw [if_pos h]
  · intro h
    have hlt : tdSeconds (days * 86400000000 + t * 1000000) < cfg.cooldown_period := by
      unfold tdSeconds
      omega
    unfold should_scale
    rw [if_pos hlt]

/-- C9, witness: with the default 60 s cooldown, scaling is suppressed
30 s after the last action, and also two full days plus 59 s after it. -/
theorem c9_subday_witness :
    tdSeconds 30000000 < baseCfg.cooldown_period ∧
      should_scale baseCfg 30000000 50 3 = false ∧
      should_scale baseCfg (2 * 86400000000 + 59 * 1000000) 50 3 = false :=
  ⟨by decide,
   (c9_cooldown_subday baseCfg 30000000 50 3 2 59).1 (by decide),
   (c9_cooldown_subday baseCfg 30000000 50 3 2 59).2 (by decide)⟩

/-- C10: a `scale_up` whose spawn loop completes without an exception sets
`last_scale_time` to the current time; in particular the control loop's
floor check does so (the tick's resulting state is stamped with the tick's
time), and consequently `should_scale` rejects every routine decision whose
sub-day elapsed seconds since that stamp are below the cooldown. -/
theorem c10_floor_restarts_cooldown (cfg : ScalingConfig) (s : ScalerState)
    (nowUs queue_length currentScale currentRun n now2 d c : Nat)
    (supplyUp supplyFloor : Nat → Option (String × Proc))
    (hall : ∀ i, (supplyFloor i).isSome = true)
    (hfloor : currentRun < cfg.min_workers)
    (hcool : tdSeconds (now2 - nowUs) < cfg.cooldown_period) :
    (scale_up s nowUs n supplyFloor).lastScaleTimeUs = nowUs ∧
      (run_tick cfg s nowUs queue_length currentScale currentRun
          supplyUp supplyFloor).lastScaleTimeUs = nowUs ∧
      should_scale cfg
        (now2 - (run_tick cfg s nowUs queue_length currentScale currentRun
          supplyUp supplyFloor).lastScaleTimeUs) d c = false := by
  have hstamp : (run_tick cfg s nowUs queue_length currentScale currentRun
      supplyUp supplyFloor).lastScaleTimeUs = nowUs := by
    unfold run_tick
    rw [if_pos hfloor]
    exact scale_up_stamps _ nowUs _ supplyFloor hall
  refine ⟨scale_up_stamps s nowUs n supplyFloor hall, hstamp, ?_⟩
  rw [hstamp]
  unfold should_scale
  rw [if_pos hcool]

/-- C10, witness: an empty pool (1 observed worker, minimum 3) is floored
at time 1 s; the state is stamped with that time and a decision 30 s later
is suppressed. -/
theorem c10_stamp_witness :
    (scale_up c10State 1000000 2 supplyW).lastScaleTimeUs = 1000000 ∧
      (run_tick baseCfg c10State 1000000 0 0 1 supplyW supplyW).lastScaleTimeUs = 1000000 ∧
      should_scale baseCfg
        (31000000 - (run_tick baseCfg c10State 1000000 0 0 1 supplyW supplyW).lastScaleTimeUs)
        50 3 = false :=
  c10_floor_restarts_cooldown baseCfg c10State 1000000 0 0 1 2 31000000 50 3
    supplyW supplyW (fun _ => rfl) (by decide) (by decide)

end GeminiScaler
